import Mathlib

/-!
Shallow embedding of the HEALTHTECK client core: the intake wizard
(Kiosk component), the dashboard queue synchronizer (Dashboard component)
and the session store (Auth component).  Definitions are translated from
the TypeScript sources; component state is a record, event handlers are
functions on that record, and each network call is split into its
synchronous prefix (everything before the await) and its continuation
(everything that runs once the response resolves), with the response
supplied as an explicit argument.
-/

namespace HealthTeck

/-! ## Shared data model (mirrors the TypeScript interfaces) -/

/-- Mirrors interface DiagnosisSuggestion: disease name and a probability
(a JS number; modelled as a rational, no claim depends on float rounding). -/
structure DiagnosisSuggestion where
  disease : String
  probability : ℚ
deriving DecidableEq, Repr

/-- Mirrors the classification object inside FullTriageResult in Kiosk.tsx.
The TS type restricts priority to five string literals, but at runtime any
string can arrive from the server, so priority is modelled as String. -/
structure Classification where
  priority : String
  color : String
  description : String
  ticket : String
  estimated_wait_time : String
deriving DecidableEq, Repr

/-- Mirrors interface FullTriageResult (Kiosk.tsx). -/
structure FullTriageResult where
  patient_name : String
  classification : Classification
  ai_suggestions : List DiagnosisSuggestion
deriving DecidableEq, Repr

/-- JS Response.ok: status in the inclusive-exclusive range 200..300. -/
def respOk (status : Nat) : Bool :=
  200 ≤ status && status < 300

/-- Drop leading whitespace characters from a character list. -/
def dropLeadingWs : List Char → List Char
  | [] => []
  | c :: cs => if c.isWhitespace then dropLeadingWs cs else c :: cs

/-- JS String.prototype.trim: strip leading and trailing whitespace (the
claims only involve ASCII whitespace, where JS and this model agree). -/
def jsTrim (s : String) : String :=
  ⟨(dropLeadingWs (dropLeadingWs s.data).reverse).reverse⟩

/-! ## Kiosk (intake wizard) data model -/

/-- Mirrors interface FormData (Kiosk.tsx): all five fields are strings;
age is kept as entered text. -/
structure FormData where
  name : String
  age : String
  mainComplaint : String
  symptoms : String
  medicalHistory : String
deriving DecidableEq, Repr

/-- Complaint input mode: the complaintMode state is "options" | "text" | null,
modelled as Option ComplaintMode. -/
inductive ComplaintMode where
  | options
  | text
deriving DecidableEq, Repr

/-- State of the Kiosk component: the useState hooks of Kiosk.tsx.
step 1 = Basics, 2 = ComplaintSelection, 3 = Details, 4 = Submitting
(loading screen), 5 = Result.  Presentation-only state (animation
direction) is omitted. -/
structure KioskState where
  step : Nat
  isLoading : Bool
  apiResult : Option FullTriageResult
  complaintMode : Option ComplaintMode
  errorMessage : Option String
  formData : FormData
deriving DecidableEq, Repr

/-- Initial value of the formData useState hook: every field empty. -/
def initFormData : FormData :=
  { name := "", age := "", mainComplaint := "", symptoms := "", medicalHistory := "" }

/-- Initial Kiosk component state, as produced by a fresh mount: the
useState initial values of Kiosk.tsx. -/
def initKioskState : KioskState :=
  { step := 1
    isLoading := false
    apiResult := none
    complaintMode := none
    errorMessage := none
    formData := initFormData }

/-- The complaintOptions array of Kiosk.tsx: (key, label) pairs. -/
def complaintOptions : List (String × String) :=
  [ ("dor_peito", "Dor no Peito")
  , ("dificuldade_respirar", "Dificuldade para Respirar")
  , ("febre", "Febre / Calafrios")
  , ("ferimento_corte", "Ferimento / Corte")
  , ("dor_abdominal", "Dor Abdominal")
  , ("tontura_desmaio", "Tontura / Desmaio")
  , ("reacao_alergica", "Reação Alérgica")
  , ("outros", "Outros") ]

/-- The predefined complaint option keys. -/
def complaintOptionKeys : List String :=
  complaintOptions.map Prod.fst

/-- onClick of the "Descrever com minhas palavras" button (Kiosk.tsx):
first clears mainComplaint when complaintOptions.some(opt.key ===
mainComplaint) holds, then sets complaintMode to "text". -/
def selectFreeTextMode (s : KioskState) : KioskState :=
  let f :=
    if complaintOptions.any (fun opt => opt.1 == s.formData.mainComplaint)
    then { s.formData with mainComplaint := "" }
    else s.formData
  { s with formData := f, complaintMode := some .text }

/-- onClick of the "Selecionar em uma lista" button (Kiosk.tsx): only sets
complaintMode to "options"; the form data is untouched. -/
def selectListMode (s : KioskState) : KioskState :=
  { s with complaintMode := some .options }

/-! ## Kiosk submission: error-message computation and the two phases -/

/-- One element of a 422 detail array from the backend: the handler reads
err.loc[1] (the offending field name) and err.msg. -/
structure FieldErr where
  loc1 : String
  msg : String
deriving DecidableEq, Repr

/-- JS String.prototype.replace with a string pattern removes only the
first occurrence of the pattern. -/
def replaceFirst (s pat : String) : String :=
  match s.splitOn pat with
  | a :: b :: rest => a ++ String.intercalate pat (b :: rest)
  | _ => s

/-- The per-field message built in handleSubmit (Kiosk.tsx):
Campo "loc[1]": msg with the "Value error, " prefix dropped. -/
def formatFieldErr (e : FieldErr) : String :=
  "Campo \"" ++ e.loc1 ++ "\": " ++ replaceFirst e.msg "Value error, "

/-- Body of a non-ok /triage response after response.json(): either the
body was not JSON, or it carried a detail field that is an array of field
errors, or a detail field that is a string or absent. -/
inductive FailBody where
  | noJson
  | fieldDetail (errs : List FieldErr)
  | msgDetail (detail : Option String)
deriving DecidableEq, Repr

/-- Default shown when the thrown error carries no message (error.message
falsy in the catch handler of handleSubmit). -/
def couldNotReachMsg : String :=
  "Não foi possível ligar ao servidor de triagem."

/-- Default used when errorData.detail is falsy in the non-422 branch. -/
def unknownServerErrorMsg : String :=
  "Ocorreu um erro desconhecido no servidor."

/-- JS String() coercion of an array of plain objects, as produced by
new Error(errorData.detail) when detail is an array on a non-422 status:
each object prints as [object Object], joined by commas. -/
def jsObjectArrayString (errs : List FieldErr) : String :=
  String.intercalate "," (errs.map fun _ => "[object Object]")

/-- Message of the TypeError raised when the handler calls .map on a
string detail under a 422 status; this path contradicts the service
contract (422 always carries an array) and is kept only for totality. -/
def mapNotFunctionMsg : String :=
  "errorData.detail.map is not a function"

/-- Message of the Error thrown by the non-ok branch of handleSubmit
(Kiosk.tsx): non-JSON bodies give "Erro status: statusText"; a 422 with a
truthy detail formats the field errors; otherwise errorData.detail or the
unknown-server-error default. -/
def thrownMessage (status : Nat) (statusText : String) (body : FailBody) : String :=
  match body with
  | .noJson => "Erro " ++ toString status ++ ": " ++ statusText
  | .fieldDetail errs =>
      if status = 422 then
        "Dados inválidos: " ++ String.intercalate ", " (errs.map formatFieldErr)
      else
        jsObjectArrayString errs
  | .msgDetail detail =>
      match detail with
      | some m =>
          if status = 422 && m != "" then mapNotFunctionMsg
          else if m = "" then unknownServerErrorMsg
          else m
      | none => unknownServerErrorMsg

/-- Outcome of the POST /triage call as seen by handleSubmit: a parsed
successful body, a non-ok HTTP response, or a thrown (network) failure
carrying the error message. -/
inductive TriageOutcome where
  | ok (result : FullTriageResult)
  | httpFail (status : Nat) (statusText : String) (body : FailBody)
  | thrown (msg : String)
deriving DecidableEq, Repr

/-- Synchronous prefix of handleSubmit (Kiosk.tsx), run before the fetch
resolves: move to the loading step, raise the loading flag, clear old
errors. -/
def handleSubmitPre (s : KioskState) : KioskState :=
  { s with step := 4, isLoading := true, errorMessage := none }

/-- Continuation of handleSubmit once the /triage call resolves: success
stores the result and moves to step 5; any failure stores the error
message (error.message, or the could-not-reach default when that message
is empty) and moves back to step 3. -/
def handleSubmitPost (s : KioskState) (out : TriageOutcome) : KioskState :=
  match out with
  | .ok r =>
      { s with apiResult := some r, isLoading := false, step := 5 }
  | .httpFail status statusText body =>
      let m := thrownMessage status statusText body
      { s with errorMessage := some (if m = "" then couldNotReachMsg else m)
               isLoading := false
               step := 3 }
  | .thrown m =>
      { s with errorMessage := some (if m = "" then couldNotReachMsg else m)
               isLoading := false
               step := 3 }

/-- startOver (Kiosk.tsx) sets window.location.href to "/", forcing a full
navigation: the Kiosk component unmounts, and any later mount starts from
the useState initial values; modelled as returning the initial state. -/
def startOver (_ : KioskState) : KioskState :=
  initKioskState

/-! ## Kiosk result styling -/

/-- Mirrors one entry of the resultConfig map in Kiosk.tsx (the icon is
identified by its component name). -/
structure ResultStyle where
  bgColor : String
  textColor : String
  borderColor : String
  icon : String
deriving DecidableEq, Repr

/-- The AZUL entry of resultConfig (Kiosk.tsx). -/
def resultConfigAzul : ResultStyle :=
  { bgColor := "bg-blue-50 dark:bg-blue-900/20"
    textColor := "text-blue-700 dark:text-blue-400"
    borderColor := "border-blue-600/50"
    icon := "CheckCircle2" }

/-- The resultConfig map of Kiosk.tsx as an association list. -/
def resultConfig : List (String × ResultStyle) :=
  [ ("VERMELHO",
      { bgColor := "bg-red-50 dark:bg-red-900/20"
        textColor := "text-red-700 dark:text-red-400"
        borderColor := "border-red-600/50"
        icon := "AlertCircle" })
  , ("LARANJA",
      { bgColor := "bg-orange-50 dark:bg-orange-900/20"
        textColor := "text-orange-700 dark:text-orange-400"
        borderColor := "border-orange-600/50"
        icon := "AlertTriangle" })
  , ("AMARELO",
      { bgColor := "bg-yellow-50 dark:bg-yellow-900/20"
        textColor := "text-yellow-700 dark:text-yellow-400"
        borderColor := "border-yellow-600/50"
        icon := "Clock" })
  , ("VERDE",
      { bgColor := "bg-green-50 dark:bg-green-900/20"
        textColor := "text-green-700 dark:text-green-400"
        borderColor := "border-green-600/50"
        icon := "CheckCircle2" })
  , ("AZUL", resultConfigAzul) ]

/-- Lookup of resultConfig by priority with the AZUL fallback. -/
def resultStyleForPriority (p : String) : ResultStyle :=
  match resultConfig.lookup p with
  | some st => st
  | none => resultConfigAzul

/-- currentResultStyle (Kiosk.tsx): apiResult and resultConfig[priority]
when both exist, else resultConfig.AZUL. -/
def currentResultStyle (apiResult : Option FullTriageResult) : ResultStyle :=
  match apiResult with
  | some r => resultStyleForPriority r.classification.priority
  | none => resultConfigAzul

/-! ## Dashboard (queue synchronizer) data model -/

/-- Mirrors interface PatientInQueue (Dashboard.tsx); priority is a String
at runtime, see Classification. -/
structure PatientInQueue where
  ticket : String
  name : String
  priority : String
  priority_color : String
  priority_description : String
  complaint : String
  wait_time_minutes : Nat
  ai_suggestions : List DiagnosisSuggestion
  arrival_time : String
deriving DecidableEq, Repr

/-- Mirrors interface DashboardStats (Dashboard.tsx); avg_wait_time_minutes
is a JS number, modelled as a rational. -/
structure DashboardStats where
  total_in_queue : Nat
  emergency_count : Nat
  avg_wait_time_minutes : ℚ
  last_hour_count : Nat
deriving DecidableEq, Repr

/-- Mirrors one entry of the priorityStyles map (Dashboard.tsx); the icon
is identified by its component name. -/
structure PriorityStyle where
  border : String
  bg : String
  text : String
  icon : String
deriving DecidableEq, Repr

/-- The AZUL entry of priorityStyles (Dashboard.tsx). -/
def priorityStylesAzul : PriorityStyle :=
  { border := "border-secondary"
    bg := "bg-secondary/10"
    text := "text-secondary-foreground"
    icon := "Users" }

/-- The priorityStyles map of Dashboard.tsx as an association list. -/
def priorityStyles : List (String × PriorityStyle) :=
  [ ("VERMELHO",
      { border := "border-destructive", bg := "bg-destructive/10"
        text := "text-destructive", icon := "AlertCircle" })
  , ("LARANJA",
      { border := "border-warning", bg := "bg-warning/10"
        text := "text-warning-foreground", icon := "AlertTriangle" })
  , ("AMARELO",
      { border := "border-yellow-500", bg := "bg-yellow-500/10"
        text := "text-yellow-600", icon := "Clock" })
  , ("VERDE",
      { border := "border-success", bg := "bg-success/10"
        text := "text-success", icon := "CheckCircle2" })
  , ("AZUL", priorityStylesAzul) ]

/-- Row styling in Dashboard.tsx: priorityStyles[patient.priority] ||
priorityStyles.AZUL. -/
def priorityStyleFor (p : String) : PriorityStyle :=
  match priorityStyles.lookup p with
  | some st => st
  | none => priorityStylesAzul

/-- State of the Dashboard component: its useState hooks, plus the token
of the surrounding AuthContext (Auth.tsx) and the current route of the
router; logout() clears the token, navigate changes the route. -/
structure DashState where
  patients : List PatientInQueue
  stats : DashboardStats
  isLoading : Bool
  isPolling : Bool
  error : Option String
  isModalOpen : Bool
  currentPatient : Option PatientInQueue
  finalDiagnosis : String
  modalError : Option String
  token : Option String
  route : String
deriving DecidableEq, Repr

/-- Message set by handleAuthError (Dashboard.tsx). -/
def sessionExpiredMsg : String :=
  "Sessão expirada. Por favor, faça login novamente."

/-- Message of the Error thrown when either poll response is non-ok. -/
def serverFetchFailMsg : String :=
  "Falha ao buscar dados do servidor. Verifique se o backend (api.py) está a rodar."

/-- Modal message rejecting an empty final diagnosis. -/
def emptyDiagnosisMsg : String :=
  "O diagnóstico final não pode estar vazio."

/-- Message of the Error thrown when the /resolve response is non-ok. -/
def submitFailMsg : String :=
  "Falha ao submeter o diagnóstico. Tente novamente."

/-- handleAuthError (Dashboard.tsx): sets the session-expired error,
calls logout() of the AuthContext (clearing the token) and navigates to
the login route. -/
def handleAuthError (s : DashState) : DashState :=
  { s with error := some sessionExpiredMsg, token := none, route := "/login" }

/-- Events produced by one invocation of fetchData: whether the pair of
requests was actually issued, and how many times handleAuthError ran. -/
structure FetchEvents where
  requestIssued : Bool
  authErrors : Nat
deriving DecidableEq, Repr

/-- Outcome of the Promise.all of the two poll fetches: either the whole
Promise.all rejected (a thrown error with a name and message), or both
responses arrived, each with its HTTP status and parsed body. -/
inductive PollOutcome where
  | netFail (name : String) (msg : String)
  | responses (patStatus : Nat) (patData : List PatientInQueue)
      (statsStatus : Nat) (statsData : DashboardStats)
deriving DecidableEq, Repr

/-- fetchData (Dashboard.tsx).  The guard returns immediately when a
non-initial call finds a poll already in flight, or when no token is
present.  Otherwise the loading/polling flag is raised, both requests are
issued together, and the continuation runs on the outcome: a 401 on
either response triggers handleAuthError exactly once; any other non-ok
response throws, setting the visible error; only when both responses are
ok are patients and stats replaced wholesale.  The finally block lowers
both flags. -/
def fetchData (isInitialLoad : Bool) (s : DashState) (out : PollOutcome) :
    DashState × FetchEvents :=
  if (!isInitialLoad && s.isPolling) || s.token.isNone then
    (s, { requestIssued := false, authErrors := 0 })
  else
    let s1 := if isInitialLoad then { s with isLoading := true }
              else { s with isPolling := true }
    match out with
    | .netFail name msg =>
        let s2 := if name != "AbortError" then { s1 with error := some msg } else s1
        ({ s2 with isLoading := false, isPolling := false },
         { requestIssued := true, authErrors := 0 })
    | .responses patStatus patData statsStatus statsData =>
        if patStatus == 401 || statsStatus == 401 then
          ({ handleAuthError s1 with isLoading := false, isPolling := false },
           { requestIssued := true, authErrors := 1 })
        else if !respOk patStatus || !respOk statsStatus then
          ({ s1 with error := some serverFetchFailMsg
                     isLoading := false, isPolling := false },
           { requestIssued := true, authErrors := 0 })
        else
          ({ s1 with patients := patData, stats := statsData, error := none
                     isLoading := false, isPolling := false },
           { requestIssued := true, authErrors := 0 })

/-- The polling interval passed to setInterval in Dashboard.tsx, in
milliseconds (3 time units of the spec). -/
def pollIntervalMs : Nat := 3000

/-- handleOpenModal (Dashboard.tsx), the onClick of the "Atender e
Registrar" button: records the patient, clears the diagnosis text and
modal error, opens the modal.  The patients replica is untouched. -/
def handleOpenModal (s : DashState) (p : PatientInQueue) : DashState :=
  { s with currentPatient := some p
           finalDiagnosis := ""
           modalError := none
           isModalOpen := true }

/-- handleCloseModal (Dashboard.tsx). -/
def handleCloseModal (s : DashState) : DashState :=
  { s with isModalOpen := false, currentPatient := none }

/-- Outcome of the POST /resolve call: a thrown (network) failure with its
message, or a response with an HTTP status. -/
inductive ResolveOutcome where
  | netFail (msg : String)
  | response (status : Nat)
deriving DecidableEq, Repr

/-- Synchronous prefix of handleSubmitDiagnosis (Dashboard.tsx), run
before the fetch is issued: an empty trimmed diagnosis only sets the
modal error and returns without a request; a missing current patient
returns silently; otherwise the modal error is cleared and the request is
issued (the returned Bool). -/
def handleSubmitDiagnosisPre (s : DashState) : DashState × Bool :=
  if jsTrim s.finalDiagnosis = "" then
    ({ s with modalError := some emptyDiagnosisMsg }, false)
  else if s.currentPatient.isNone then
    (s, false)
  else
    ({ s with modalError := none }, true)

/-- Continuation of handleSubmitDiagnosis once the /resolve call
resolves: 401 runs handleAuthError; any other non-ok status throws,
setting the modal error; on success the current patient's ticket is
filtered out of the replica and the modal closes.  A thrown network
failure sets the modal error to its message.  No fetch of entries or
stats is triggered here. -/
def handleSubmitDiagnosisPost (s : DashState) (out : ResolveOutcome) : DashState :=
  match s.currentPatient with
  | none => s
  | some cp =>
      match out with
      | .netFail msg => { s with modalError := some msg }
      | .response status =>
          if status == 401 then handleAuthError s
          else if !respOk status then { s with modalError := some submitFailMsg }
          else
            handleCloseModal
              { s with patients := s.patients.filter (fun p => p.ticket ≠ cp.ticket) }

/-! ## Concrete states used by witnesses and counterexamples -/

/-- A sample queued patient. -/
def exPatient : PatientInQueue :=
  { ticket := "A1", name := "Ana", priority := "VERDE"
    priority_color := "#2ecc71", priority_description := "Pouco Urgente"
    complaint := "febre", wait_time_minutes := 5
    ai_suggestions := [], arrival_time := "10:00" }

/-- Sample dashboard stats. -/
def exStats : DashboardStats :=
  { total_in_queue := 1, emergency_count := 0
    avg_wait_time_minutes := 5, last_hour_count := 1 }

/-- A dashboard state with the diagnosis modal open on exPatient and a
non-blank diagnosis entered. -/
def exModalState : DashState :=
  { patients := [exPatient], stats := exStats
    isLoading := false, isPolling := false, error := none
    isModalOpen := true, currentPatient := some exPatient
    finalDiagnosis := "Apendicite", modalError := none
    token := some "token123", route := "/dashboard" }

/-- The dashboard state before the operator acts: modal closed. -/
def exQueueState : DashState :=
  { exModalState with isModalOpen := false, currentPatient := none, finalDiagnosis := "" }

/-- The modal state with only whitespace entered as diagnosis. -/
def exBlankModalState : DashState :=
  { exModalState with finalDiagnosis := "   " }

/-- A dashboard state with a poll already in flight. -/
def exPollingState : DashState :=
  { exQueueState with isPolling := true }

/-- A dashboard state whose session has already been cleared. -/
def exLoggedOutState : DashState :=
  { exQueueState with token := none }

/-- A triage result whose priority is outside the five-value enumeration. -/
def exUnknownResult : FullTriageResult :=
  { patient_name := "Ana"
    classification :=
      { priority := "ROXO", color := "#800080", description := "?"
        ticket := "A9", estimated_wait_time := "10 min" }
    ai_suggestions := [] }

/-! ## Theorems -/

/-- Bridge between the source's complaintOptions.some(opt.key === v) test
and membership of v in the predefined option keys. -/
theorem complaint_any_iff_mem (v : String) :
    (complaintOptions.any fun opt => opt.1 == v) = true ↔ v ∈ complaintOptionKeys := by
  simp [complaintOptionKeys, List.any_eq_true, List.mem_map]

/-- C2: for every submission whose response is successful, the wizard
moves exactly to the Result step (5) holding the returned TriageResult,
and the explicit start-over action lands on Basics (step 1) with every
field of the intake form cleared. -/
theorem c2_success_to_result_and_start_over_resets
    (s : KioskState) (r : FullTriageResult) :
    (handleSubmitPost s (.ok r)).step = 5 ∧
    (handleSubmitPost s (.ok r)).apiResult = some r ∧
    (handleSubmitPost s (.ok r)).isLoading = false ∧
    (startOver s).step = 1 ∧
    (startOver s).formData.name = "" ∧
    (startOver s).formData.age = "" ∧
    (startOver s).formData.mainComplaint = "" ∧
    (startOver s).formData.symptoms = "" ∧
    (startOver s).formData.medicalHistory = "" :=
  ⟨rfl, rfl, rfl, rfl, rfl, rfl, rfl, rfl, rfl⟩

/-- C7: switching the complaint-input mode to free text clears
mainComplaint exactly when its current value is one of the predefined
option keys and preserves it otherwise (all other fields are untouched),
while switching to list selection never changes the form data. -/
theorem c7_complaint_mode_switch_clearing (s : KioskState) :
    (selectFreeTextMode s).complaintMode = some ComplaintMode.text ∧
    (selectFreeTextMode s).formData.mainComplaint =
      (if s.formData.mainComplaint ∈ complaintOptionKeys then ""
       else s.formData.mainComplaint) ∧
    (selectFreeTextMode s).formData.name = s.formData.name ∧
    (selectFreeTextMode s).formData.age = s.formData.age ∧
    (selectFreeTextMode s).formData.symptoms = s.formData.symptoms ∧
    (selectFreeTextMode s).formData.medicalHistory = s.formData.medicalHistory ∧
    (selectListMode s).formData = s.formData ∧
    (selectListMode s).complaintMode = some ComplaintMode.options := by
  by_cases h : s.formData.mainComplaint ∈ complaintOptionKeys
  · have ha := (complaint_any_iff_mem s.formData.mainComplaint).2 h
    simp [selectFreeTextMode, selectListMode, ha, h]
  · have ha : ¬ ((complaintOptions.any fun opt => opt.1 == s.formData.mainComplaint) = true) :=
      fun hc => h ((complaint_any_iff_mem s.formData.mainComplaint).1 hc)
    simp [selectFreeTextMode, selectListMode, ha, h]

/-- C8: for every priority value outside the five enumerated ones, both
the dashboard row styling and the wizard result styling select exactly
the AZUL configuration as fallback. -/
theorem c8_unknown_priority_falls_back_to_azul (p : String) (r : FullTriageResult)
    (hp : p ∉ ["VERMELHO", "LARANJA", "AMARELO", "VERDE", "AZUL"])
    (hr : r.classification.priority = p) :
    priorityStyleFor p = priorityStyleFor "AZUL" ∧
    currentResultStyle (some r) = resultStyleForPriority "AZUL" := by
  obtain ⟨h1, h2, h3, h4, h5⟩ : p ≠ "VERMELHO" ∧ p ≠ "LARANJA" ∧ p ≠ "AMARELO" ∧
      p ≠ "VERDE" ∧ p ≠ "AZUL" := by simpa using hp
  have b1 : (p == "VERMELHO") = false := by simpa using h1
  have b2 : (p == "LARANJA") = false := by simpa using h2
  have b3 : (p == "AMARELO") = false := by simpa using h3
  have b4 : (p == "VERDE") = false := by simpa using h4
  have b5 : (p == "AZUL") = false := by simpa using h5
  have hd : priorityStyles.lookup p = none := by
    simp [priorityStyles, List.lookup, b1, b2, b3, b4, b5]
  have hk : resultConfig.lookup p = none := by
    simp [resultConfig, List.lookup, b1, b2, b3, b4, b5]
  constructor
  · show priorityStyleFor p = priorityStyleFor "AZUL"
    simp only [priorityStyleFor, hd]
    rfl
  · show currentResultStyle (some r) = resultStyleForPriority "AZUL"
    simp only [currentResultStyle, resultStyleForPriority, hr, hk]
    rfl

/-- C8 witness: the unknown priority ROXO falls back to the AZUL
configuration in both views. -/
theorem c8_unknown_priority_witness :
    priorityStyleFor "ROXO" = priorityStyleFor "AZUL" ∧
    currentResultStyle (some exUnknownResult) = resultStyleForPriority "AZUL" :=
  c8_unknown_priority_falls_back_to_azul "ROXO" exUnknownResult (by decide) rfl

/-- C3 counterexample: a 500 response whose JSON body has no detail field
is rendered as the unknown-server-error default, which is not the
could-not-reach-the-server default the claim prescribes when no server
message is available. -/
theorem c3_counterexample_unknown_default_shown :
    (handleSubmitPost (handleSubmitPre initKioskState)
        (.httpFail 500 "Internal Server Error" (.msgDetail none))).errorMessage
      = some unknownServerErrorMsg ∧
    unknownServerErrorMsg ≠ couldNotReachMsg := by
  exact ⟨rfl, by decide⟩

/-- C3 (amended): a 422 with a structured detail array is rendered as one
message per field error (field name plus reason, joined) and the wizard
lands back on the Details step (3), never Result (5); a failure without
structured detail renders the server's detail string when nonempty and
the unknown-server-error default when the server provides none; the
could-not-reach default is rendered only when a thrown failure carries an
empty message. -/
theorem c3_amended_error_rendering (s : KioskState) (errs : List FieldErr)
    (statusText m : String) (hm : m ≠ "") :
    (handleSubmitPost s (.httpFail 422 statusText (.fieldDetail errs))).errorMessage
      = some ("Dados inválidos: " ++ String.intercalate ", " (errs.map formatFieldErr)) ∧
    (handleSubmitPost s (.httpFail 422 statusText (.fieldDetail errs))).step = 3 ∧
    (handleSubmitPost s (.httpFail 422 statusText (.fieldDetail errs))).step ≠ 5 ∧
    (handleSubmitPost s (.httpFail 500 statusText (.msgDetail (some m)))).errorMessage
      = some m ∧
    (handleSubmitPost s (.httpFail 500 statusText (.msgDetail none))).errorMessage
      = some unknownServerErrorMsg ∧
    (handleSubmitPost s (.thrown "")).errorMessage = some couldNotReachMsg := by
  have hne : ("Dados inválidos: " ++ String.intercalate ", " (errs.map formatFieldErr)) ≠ "" := by
    intro hc
    have hlen := congrArg String.length hc
    simp [String.length_append] at hlen
    exact absurd hlen.1 (by decide)
  refine ⟨?_, ?_, ?_, ?_, rfl, rfl⟩
  · simp [handleSubmitPost, thrownMessage, hne]
  · simp [handleSubmitPost]
  · simp [handleSubmitPost]
  · simp [handleSubmitPost, thrownMessage, hm]

/-- C3 witness: a concrete plain-message failure is rendered verbatim. -/
theorem c3_amended_witness :
    ("Utilizador inválido" ≠ "") ∧
    ((handleSubmitPost initKioskState
        (.httpFail 500 "Internal Server Error" (.msgDetail (some "Utilizador inválido")))).errorMessage
      = some "Utilizador inválido") :=
  ⟨by decide,
   (c3_amended_error_rendering initKioskState [] "Internal Server Error"
      "Utilizador inválido" (by decide)).2.2.2.1⟩

/-- C1 counterexample: with the diagnosis modal open on the queued
patient A1 and a non-blank diagnosis entered, the synchronous prefix of
the action does issue the network call, yet the patients replica still
contains the A1 entry — the entry is not removed before the call
resolves; the attend button itself (handleOpenModal) also leaves the
replica untouched. -/
theorem c1_counterexample_no_removal_before_resolve :
    (handleOpenModal exQueueState exPatient).patients = [exPatient] ∧
    (handleSubmitDiagnosisPre exModalState).2 = true ∧
    (handleSubmitDiagnosisPre exModalState).1.patients = [exPatient] := by
  refine ⟨rfl, ?_, ?_⟩ <;> decide

/-- C1 (amended): invoking attend for a queue entry opens the diagnosis
dialog and leaves the replica unchanged; the entry is removed from the
replica only by the continuation of a successful resolve call, while a
failed call (non-ok status or thrown failure) leaves the replica
unchanged; the action itself dispatches no reconciliation fetch. -/
theorem c1_removal_only_after_successful_resolve (s : DashState)
    (p cp : PatientInQueue) (hcp : s.currentPatient = some cp)
    (status : Nat) (hok : respOk status = true) (m : String) :
    (handleOpenModal s p).patients = s.patients ∧
    (handleSubmitDiagnosisPre s).1.patients = s.patients ∧
    (handleSubmitDiagnosisPost s (.response status)).patients
      = s.patients.filter (fun q => q.ticket ≠ cp.ticket) ∧
    (handleSubmitDiagnosisPost s (.response 500)).patients = s.patients ∧
    (handleSubmitDiagnosisPost s (.netFail m)).patients = s.patients := by
  have h401 : (status == 401) = false := by
    simp only [beq_eq_false_iff_ne]
    rintro rfl
    simp [respOk] at hok
  refine ⟨rfl, ?_, ?_, ?_, ?_⟩
  · by_cases h : jsTrim s.finalDiagnosis = "" <;>
      simp [handleSubmitDiagnosisPre, h, hcp]
  · simp [handleSubmitDiagnosisPost, hcp, h401, hok, handleCloseModal]
  · simp [handleSubmitDiagnosisPost, hcp, respOk]
  · simp [handleSubmitDiagnosisPost, hcp]

/-- C1 witness: a successful resolve on the concrete modal state empties
the one-entry replica. -/
theorem c1_amended_witness :
    respOk 200 = true ∧
    (handleSubmitDiagnosisPost exModalState (.response 200)).patients
      = exModalState.patients.filter (fun q => q.ticket ≠ exPatient.ticket) :=
  ⟨by decide,
   (c1_removal_only_after_successful_resolve exModalState exPatient exPatient rfl
      200 (by decide) "x").2.2.1⟩

/-- Every invocation of fetchData runs handleAuthError at most once. -/
theorem fetchData_authErrors_le_one (init : Bool) (s : DashState) (out : PollOutcome) :
    (fetchData init s out).2.authErrors ≤ 1 := by
  unfold fetchData
  split
  · simp
  · cases out with
    | netFail name msg => simp
    | responses ps pd ss sd =>
        by_cases h1 : (ps == 401 || ss == 401) = true
        · simp [h1]
        · by_cases h2 : (!respOk ps || !respOk ss) = true <;> simp [h1, h2]

/-- C4: a poll cycle whose two concurrent responses are both unauthorized
performs exactly one logout-plus-redirect (handleAuthError runs once,
the token is cleared, the route becomes the login view); no fetchData
invocation ever runs it more than once; and once the token is gone every
further fetchData call returns immediately without issuing a request. -/
theorem c4_unauthorized_single_logout (s s2 : DashState) (t : String)
    (ht : s.token = some t) (init i : Bool)
    (hrun : (init || !s.isPolling) = true)
    (pd : List PatientInQueue) (sd : DashboardStats)
    (out : PollOutcome) (h2 : s2.token = none) :
    (fetchData init s (.responses 401 pd 401 sd)).2.authErrors = 1 ∧
    (fetchData init s (.responses 401 pd 401 sd)).1.token = none ∧
    (fetchData init s (.responses 401 pd 401 sd)).1.route = "/login" ∧
    (fetchData init s out).2.authErrors ≤ 1 ∧
    fetchData i s2 out = (s2, { requestIssued := false, authErrors := 0 }) := by
  have hguard : ((!init && s.isPolling) || s.token.isNone) = false := by
    cases init with
    | true => simp [ht]
    | false => simp at hrun; simp [ht, hrun]
  refine ⟨?_, ?_, ?_, fetchData_authErrors_le_one init s out, ?_⟩ <;>
    simp [fetchData, hguard, handleAuthError, h2]

/-- C4 witness: both responses unauthorized on the concrete idle
dashboard state, and the already-logged-out state fetches nothing. -/
theorem c4_unauthorized_witness :
    exQueueState.token = some "token123" ∧
    (fetchData true exQueueState (.responses 401 [] 401 exStats)).2.authErrors = 1 ∧
    (fetchData true exQueueState (.responses 401 [] 401 exStats)).1.token = none ∧
    fetchData false exLoggedOutState (.responses 200 [] 200 exStats)
      = (exLoggedOutState, { requestIssued := false, authErrors := 0 }) := by
  have h := c4_unauthorized_single_logout exQueueState exLoggedOutState "token123"
    rfl true false rfl [] exStats (.responses 200 [] 200 exStats) rfl
  exact ⟨rfl, h.1, h.2.1, h.2.2.2.2⟩

/-- C5: a non-initial fetchData invocation that finds a poll already in
flight (isPolling set) skips the tick entirely: no request is issued and
the state is unchanged. -/
theorem c5_overlapping_tick_skipped (s : DashState) (out : PollOutcome)
    (h : s.isPolling = true) :
    fetchData false s out = (s, { requestIssued := false, authErrors := 0 }) := by
  simp [fetchData, h]

/-- C5 witness: the concrete in-flight state skips a timer tick. -/
theorem c5_overlapping_tick_witness :
    exPollingState.isPolling = true ∧
    fetchData false exPollingState (.responses 200 [] 200 exStats)
      = (exPollingState, { requestIssued := false, authErrors := 0 }) :=
  ⟨rfl, c5_overlapping_tick_skipped exPollingState (.responses 200 [] 200 exStats) rfl⟩

/-- C6: within one issued poll cycle the replica is replaced wholesale
exactly when both responses are ok: on double success patients and stats
become the fetched data, while any failing combination (either non-ok
status, including unauthorized, or a rejected Promise.all) leaves both
patients and stats untouched. -/
theorem c6_wholesale_replacement_iff_both_ok (s : DashState) (t : String)
    (ht : s.token = some t) (init : Bool)
    (hrun : (init || !s.isPolling) = true)
    (ps ss : Nat) (pd : List PatientInQueue) (sd : DashboardStats)
    (nm msg : String) :
    (respOk ps = true → respOk ss = true →
      (fetchData init s (.responses ps pd ss sd)).1.patients = pd ∧
      (fetchData init s (.responses ps pd ss sd)).1.stats = sd) ∧
    (¬ (respOk ps = true ∧ respOk ss = true) →
      (fetchData init s (.responses ps pd ss sd)).1.patients = s.patients ∧
      (fetchData init s (.responses ps pd ss sd)).1.stats = s.stats) ∧
    ((fetchData init s (.netFail nm msg)).1.patients = s.patients ∧
     (fetchData init s (.netFail nm msg)).1.stats = s.stats) := by
  have hguard : ((!init && s.isPolling) || s.token.isNone) = false := by
    cases init with
    | true => simp [ht]
    | false => simp at hrun; simp [ht, hrun]
  refine ⟨?_, ?_, ?_⟩
  · intro hps hss
    have h401p : (ps == 401) = false := by
      simp only [beq_eq_false_iff_ne]; rintro rfl; simp [respOk] at hps
    have h401s : (ss == 401) = false := by
      simp only [beq_eq_false_iff_ne]; rintro rfl; simp [respOk] at hss
    simp [fetchData, hguard, h401p, h401s, hps, hss]
  · intro hfail
    by_cases h401 : (ps == 401 || ss == 401) = true
    · simp [fetchData, hguard, h401, handleAuthError]
      cases init <;> simp
    · have hko : (!respOk ps || !respOk ss) = true := by
        rcases not_and_or.1 hfail with h | h <;>
          simp [Bool.eq_false_iff.2 h]
      simp [fetchData, hguard, h401, hko]
      cases init <;> simp
  · have htn : s.token ≠ none := by simp [ht]
    cases init with
    | true =>
        by_cases hns : nm = "AbortError" <;> simp [fetchData, hns, htn]
    | false =>
        have hpol : s.isPolling = false := by simpa using hrun
        by_cases hns : nm = "AbortError" <;> simp [fetchData, hns, htn, hpol]

/-- C6 witness: a concrete double-success cycle replaces both
collections, and a cycle with one server failure replaces neither. -/
theorem c6_wholesale_replacement_witness :
    ((fetchData true exQueueState (.responses 200 [] 200 exStats)).1.patients = [] ∧
     (fetchData true exQueueState (.responses 200 [] 200 exStats)).1.stats = exStats) ∧
    ((fetchData true exQueueState (.responses 200 [] 500 exStats)).1.patients
        = exQueueState.patients ∧
     (fetchData true exQueueState (.responses 200 [] 500 exStats)).1.stats
        = exQueueState.stats) :=
  ⟨(c6_wholesale_replacement_iff_both_ok exQueueState "token123" rfl true rfl
      200 200 [] exStats "x" "y").1 (by decide) (by decide),
   (c6_wholesale_replacement_iff_both_ok exQueueState "token123" rfl true rfl
      200 500 [] exStats "x" "y").2.1 (by decide)⟩

/-- C9: for a resolve-with-diagnosis call on the current patient, success
removes exactly that ticket from the replica and closes the dialog, while
a non-auth failure (non-ok status or thrown failure) leaves the replica
unchanged and the dialog open, showing the failure message with the
entered diagnosis text preserved for retry. -/
theorem c9_resolve_success_removes_failure_keeps_dialog (s : DashState)
    (cp : PatientInQueue) (hcp : s.currentPatient = some cp)
    (hopen : s.isModalOpen = true) (status : Nat) (m : String) :
    (respOk status = true →
      (handleSubmitDiagnosisPost s (.response status)).patients
          = s.patients.filter (fun q => q.ticket ≠ cp.ticket) ∧
      (handleSubmitDiagnosisPost s (.response status)).isModalOpen = false) ∧
    (respOk status = false → status ≠ 401 →
      (handleSubmitDiagnosisPost s (.response status)).patients = s.patients ∧
      (handleSubmitDiagnosisPost s (.response status)).isModalOpen = true ∧
      (handleSubmitDiagnosisPost s (.response status)).modalError = some submitFailMsg ∧
      (handleSubmitDiagnosisPost s (.response status)).finalDiagnosis = s.finalDiagnosis) ∧
    ((handleSubmitDiagnosisPost s (.netFail m)).patients = s.patients ∧
     (handleSubmitDiagnosisPost s (.netFail m)).isModalOpen = true ∧
     (handleSubmitDiagnosisPost s (.netFail m)).modalError = some m ∧
     (handleSubmitDiagnosisPost s (.netFail m)).finalDiagnosis = s.finalDiagnosis) := by
  refine ⟨?_, ?_, ?_⟩
  · intro hok
    have h401 : (status == 401) = false := by
      simp only [beq_eq_false_iff_ne]; rintro rfl; simp [respOk] at hok
    simp [handleSubmitDiagnosisPost, hcp, h401, hok, handleCloseModal]
  · intro hko hne
    have h401 : (status == 401) = false := by
      simp only [beq_eq_false_iff_ne]; exact hne
    simp [handleSubmitDiagnosisPost, hcp, h401, hko, hopen]
  · simp [handleSubmitDiagnosisPost, hcp, hopen]

/-- C9 witness: a concrete 503 failure keeps the entry, keeps the dialog
open with the failure message, and preserves the entered diagnosis. -/
theorem c9_resolve_failure_witness :
    respOk 503 = false ∧
    (handleSubmitDiagnosisPost exModalState (.response 503)).patients = [exPatient] ∧
    (handleSubmitDiagnosisPost exModalState (.response 503)).modalError
      = some submitFailMsg ∧
    (handleSubmitDiagnosisPost exModalState (.response 503)).finalDiagnosis
      = "Apendicite" := by
  have h := (c9_resolve_success_removes_failure_keeps_dialog exModalState exPatient
    rfl rfl 503 "x").2.1 (by decide) (by decide)
  exact ⟨by decide, h.1, h.2.2.1, h.2.2.2⟩

/-- C10: confirming the dialog with a whitespace-only diagnosis issues no
network call and changes nothing except the dialog-level error message;
the patients replica, the stats, the global error and the open dialog are
all untouched. -/
theorem c10_blank_diagnosis_no_request (s : DashState)
    (h : jsTrim s.finalDiagnosis = "") :
    (handleSubmitDiagnosisPre s).2 = false ∧
    (handleSubmitDiagnosisPre s).1.patients = s.patients ∧
    (handleSubmitDiagnosisPre s).1.stats = s.stats ∧
    (handleSubmitDiagnosisPre s).1.error = s.error ∧
    (handleSubmitDiagnosisPre s).1.isModalOpen = s.isModalOpen ∧
    (handleSubmitDiagnosisPre s).1.finalDiagnosis = s.finalDiagnosis ∧
    (handleSubmitDiagnosisPre s).1.modalError = some emptyDiagnosisMsg := by
  simp [handleSubmitDiagnosisPre, h]

/-- C10 witness: a three-space diagnosis trims to empty, and confirming
it only sets the modal error. -/
theorem c10_blank_diagnosis_witness :
    jsTrim exBlankModalState.finalDiagnosis = "" ∧
    (handleSubmitDiagnosisPre exBlankModalState).2 = false ∧
    (handleSubmitDiagnosisPre exBlankModalState).1.patients = [exPatient] ∧
    (handleSubmitDiagnosisPre exBlankModalState).1.modalError = some emptyDiagnosisMsg := by
  have h := c10_blank_diagnosis_no_request exBlankModalState (by decide)
  exact ⟨by decide, h.1, h.2.1, h.2.2.2.2.2.2⟩

end HealthTeck
